import Mathlib

/-!
Verification development for the X posting orchestrator
(src/Agentos/orchestrator.py).

The Python code is shallowly embedded: pure decision logic becomes Lean
functions, state-store reads/writes become explicit state passing, and
external collaborators (filesystem, content generators, embedding service,
publisher, random draws, wall-clock time) become parameters.

Time model: the code works in one fixed local timezone (Europe/Stockholm).
A timestamp is modelled as minutes of local civil time since an arbitrary
epoch (an integer); a calendar date is the floor of that by 1440, which
matches `datetime.date()` equality and `timedelta.days` (floor) arithmetic
used by the source within a single timezone.
-/

namespace Agentos

/-- Local civil time, in minutes since an arbitrary epoch. -/
abbrev DT := Int

/-- Calendar day of a timestamp (floor by minutes-per-day), the model of
`datetime.date()` in the fixed local timezone. -/
def dtDate (t : DT) : Int := Int.fdiv t 1440

/-- Python `l[-n:]`: the last `n` elements of a list (all of them when the
list is shorter). -/
def lastN (n : Nat) (l : List α) : List α := l.drop (l.length - n)

/-- The four content categories handled by the orchestrator. -/
inductive ContentType where
  | news
  | curator
  | meme
  | image
deriving Repr, DecidableEq, Inhabited

/-- The `week_counts` dict: one integer per content type
(`_init_databases` creates exactly these four keys). -/
structure WeekCounts where
  news : Nat
  curator : Nat
  meme : Nat
  image : Nat
deriving Repr, DecidableEq, Inhabited

def WeekCounts.get (w : WeekCounts) : ContentType → Nat
  | .news => w.news
  | .curator => w.curator
  | .meme => w.meme
  | .image => w.image

def WeekCounts.zero : WeekCounts := ⟨0, 0, 0, 0⟩

/-- `state["week_counts"][content_type] += 1`. -/
def WeekCounts.bump (w : WeekCounts) : ContentType → WeekCounts
  | .news => { w with news := w.news + 1 }
  | .curator => { w with curator := w.curator + 1 }
  | .meme => { w with meme := w.meme + 1 }
  | .image => { w with image := w.image + 1 }

/-- One `engagement_by_type` entry. -/
structure Engagement where
  avg_likes : ℚ
  avg_rt : ℚ
  count : Nat
deriving Repr, DecidableEq, Inhabited

structure EngagementByType where
  news : Engagement
  curator : Engagement
  meme : Engagement
  image : Engagement
deriving Repr, DecidableEq, Inhabited

/-- One entry of `state["last_7_days_posts"]`. -/
structure PostEntry where
  type : ContentType
  date : Int
  tweet_id : String
deriving Repr, DecidableEq, Inhabited

/-- The orchestrator state document (`orchestrator_state.json`). -/
structure OrchState where
  last_post_time : Option DT
  last_7_days_posts : List PostEntry
  week_counts : WeekCounts
  recent_topics : List String
  curated_tweet_ids : List String
  engagement_by_type : EngagementByType
  next_post_scheduled : Option DT
  preferred_time_windows : List String
  week_start_date : Int
deriving Repr, DecidableEq, Inhabited

/-- The metadata dict attached to a candidate; the orchestrator core reads
exactly the `agent` and `original_tweet_id` entries. -/
structure Meta where
  agent : String
  source : String
  original_tweet_id : Option String
deriving Repr, DecidableEq, Inhabited

/-- A content candidate as returned by `call_agent`. -/
structure Content where
  text : String
  media_path : Option String
  metadata : Meta
deriving Repr, DecidableEq, Inhabited

/-- One record of `posts_database.json`. -/
structure PostRecord where
  post_id : String
  posted_at : DT
  content_type : ContentType
  text : String
  text_hash : String
  embedding : List ℚ
  media_url : Option String
  agent_used : String
  metadata : Meta
  quality_score : Int
  likes : Nat
  retweets : Nat
  views : Nat
deriving Repr, DecidableEq, Inhabited

/-! ## Configuration (the `self.config` literals) -/

/-- The quality score is a Python float in the source, but it only ever
takes integer values (10 minus integer deductions), so it is modelled
exactly as an integer. -/
def min_quality_score : Int := 6
def max_regeneration_attempts : Nat := 2
def duplicate_similarity_threshold : ℚ := 85 / 100
def track_days : Int := 30
def recent_topics_size : Nat := 10

/-- `config["base_weights"]`. -/
def base_weight : ContentType → ℚ
  | .news => 35 / 100
  | .curator => 30 / 100
  | .meme => 20 / 100
  | .image => 15 / 100

/-! ## Validator (`validate_content`) -/

/-- The filesystem, an external collaborator of `validate_content`:
`Path(p).exists()` and the file size in megabytes. -/
structure FS where
  fileExists : String → Bool
  size_mb : String → ℚ

/-- `str.split(sep)` keeping empty parts (Python semantics for a one-char
separator), written by structural recursion over the character list so that
it reduces inside the kernel. -/
def splitOnChar (sep : Char) : List Char → List Char → List String
  | [], acc => [String.mk acc.reverse]
  | c :: rest, acc =>
    if c = sep then String.mk acc.reverse :: splitOnChar sep rest []
    else splitOnChar sep rest (c :: acc)

def lowerStr (s : String) : String := String.mk (s.toList.map Char.toLower)

/-- Model of `pathlib.Path(p).suffix` for ordinary path strings: the final
dotted extension of the last path component, empty when there is no dot or
the only dot is the leading one of a hidden file. -/
def pathSuffix (p : String) : String :=
  let name := (splitOnChar '/' p.toList []).getLastD p
  let parts := splitOnChar '.' name.toList []
  match parts with
  | [] => ""
  | [_] => ""
  | first :: rest =>
    if first = "" ∧ rest.length = 1 then ""
    else "." ++ rest.getLastD ""

def valid_extensions : List String :=
  [".mp4", ".jpg", ".jpeg", ".png", ".gif", ".webm"]

/-- The individual deductions of `validate_content` (in the source each one
appends a message to `issues`; the exact message strings are not modelled). -/
inductive Issue where
  | emptyText
  | tooLong
  | unbalancedQuotes
  | mediaMissing
  | mediaTooLarge
  | badMediaFormat
deriving Repr, DecidableEq, Inhabited

def doubleQuote : Char := Char.ofNat 34
def singleQuote : Char := Char.ofNat 39

/-- `validate_content`. Returns `(is_valid, quality_score, issues)`, where
`issues` is `[]` in the valid case (the source returns the string literal
describing success there) and the list of deduction reasons otherwise. -/
def validate_content (fs : FS) (content : Content) : Bool × Int × List Issue :=
  let text := content.text
  -- `not text or len(text.strip()) == 0`: the text is empty or all whitespace
  if text.toList.all (fun c => c.isWhitespace) then (false, 0, [Issue.emptyText])
  else
    let score1 : Int := 10
    let issues1 : List Issue := []
    let (score2, issues2) :=
      if text.length > 280 then (score1 - 5, issues1 ++ [Issue.tooLong])
      else (score1, issues1)
    let (score3, issues3) :=
      if text.toList.count doubleQuote % 2 ≠ 0 ∨
         text.toList.count singleQuote % 2 ≠ 0 then
        (score2 - 1, issues2 ++ [Issue.unbalancedQuotes])
      else (score2, issues2)
    let (score4, issues4) :=
      match content.media_path with
      | none => (score3, issues3)
      | some p =>
        if ¬ fs.fileExists p then (score3 - 3, issues3 ++ [Issue.mediaMissing])
        else
          let (s, is) :=
            if fs.size_mb p > 512 then (score3 - 2, issues3 ++ [Issue.mediaTooLarge])
            else (score3, issues3)
          if lowerStr (pathSuffix p) ∉ valid_extensions then
            (s - 2, is ++ [Issue.badMediaFormat])
          else (s, is)
    if score4 ≥ min_quality_score then (true, score4, [])
    else (false, score4, issues4)

/-! ## Content selector (`select_content_type` and its helpers) -/

/-- `last_7_days[-1]["type"] if last_7_days else None`. -/
def yesterday_type (l : List PostEntry) : Option ContentType :=
  (l.getLast?).map (fun p => p.type)

/-- `last_7_days[-2]["type"] if len(last_7_days) >= 2 else None`. -/
def day_before_type (l : List PostEntry) : Option ContentType :=
  (l.reverse[1]?).map (fun p => p.type)

/-- The loop of `_days_since_content_type`: `for i, post in
enumerate(reversed(last_7_days)): if post["type"] == content_type: return i`,
falling through to `return 7`. -/
def days_since_aux (ct : ContentType) : List PostEntry → Nat → Nat
  | [], _ => 7
  | p :: rest, i => if p.type = ct then i else days_since_aux ct rest (i + 1)

/-- `_days_since_content_type`. -/
def days_since_content_type (l : List PostEntry) (ct : ContentType) : Nat :=
  days_since_aux ct l.reverse 0

/-- The guard of rule 3 in `select_content_type`:
`days_since_last >= 4`. -/
def boost_underused_cond (l : List PostEntry) (ct : ContentType) : Bool :=
  days_since_content_type l ct ≥ 4

/-- The `expected_weekly` literals of rule 4 (written in the source as
2.5, 2.1, 1.4, 1.0 with comments "35% of 7" etc.). -/
def expected_weekly : ContentType → ℚ
  | .news => 5 / 2
  | .curator => 21 / 10
  | .meme => 7 / 5
  | .image => 1

/-- The guard of rule 4 in `select_content_type`:
`week_counts[content_type] > expected_weekly[content_type]`. -/
def over_quota_cond (wc : WeekCounts) (ct : ContentType) : Bool :=
  (wc.get ct : ℚ) > expected_weekly ct

/-- The adjusted weight of one content type after the four rules of
`select_content_type` have been applied in order. -/
def adjusted_weight (state : OrchState) (ct : ContentType) : ℚ :=
  let l := state.last_7_days_posts
  let w0 := base_weight ct
  -- Rule 1: recency penalty (posted yesterday)
  let w1 := if yesterday_type l = some ct then w0 * (3 / 10) else w0
  -- Rule 2: repetition penalty (posted two days in a row)
  let w2 := if yesterday_type l = some ct ∧ day_before_type l = some ct
            then 0 else w1
  -- Rule 3: boost underused
  let w3 := if boost_underused_cond l ct then w2 * (3 / 2) else w2
  -- Rule 4: weekly balance
  if over_quota_cond state.week_counts ct then w3 * (1 / 2) else w3

/-- `total = sum(weights.values())` over the four adjusted weights. -/
def weight_total (state : OrchState) : ℚ :=
  adjusted_weight state .news + adjusted_weight state .curator +
    adjusted_weight state .meme + adjusted_weight state .image

def base_weight_total : ℚ :=
  base_weight .news + base_weight .curator + base_weight .meme +
    base_weight .image

/-- The normalized probability `select_content_type` assigns to `ct` (the
actual draw from this distribution is injected randomness): when the
adjusted total is zero the source resets to the base weights before
normalizing. -/
def select_probs (state : OrchState) (ct : ContentType) : ℚ :=
  if weight_total state = 0 then base_weight ct / base_weight_total
  else adjusted_weight state ct / weight_total state

/-! ## State load and scheduler (`load_state`, `should_post_now`) -/

/-- `(now - week_start).days` where `week_start` is the stored date at
midnight: `timedelta.days` floors. -/
def days_since_week_start (now : DT) (week_start_date : Int) : Int :=
  Int.fdiv (now - week_start_date * 1440) 1440

/-- The state written back by the weekly-counter reset in `load_state`. -/
def weeklyReset (s : OrchState) (now : DT) : OrchState :=
  { s with week_counts := WeekCounts.zero, week_start_date := dtDate now }

/-- `load_state`: returns the in-memory state and, when the weekly reset
fired, the document saved back to the store. -/
def load_state (stored : OrchState) (now : DT) : OrchState × Option OrchState :=
  if days_since_week_start now stored.week_start_date ≥ 7 then
    let s := weeklyReset stored now
    (s, some s)
  else (stored, none)

/-- `should_post_now`: the boolean decision plus the store write performed
by its internal `load_state` call. -/
def should_post_now (stored : OrchState) (now : DT) : Bool × Option OrchState :=
  let r := load_state stored now
  let state := r.1
  let b :=
    match state.next_post_scheduled with
    | some scheduled => decide (now ≥ scheduled)
    | none =>
      match state.last_post_time with
      | some last =>
        if dtDate last = dtDate now then false
        else if ((now - last : Int) : ℚ) / 60 < 20 then false
        else true
      | none => true
  (b, r.2)

/-! ## Duplicate detector (`check_duplicates`) -/

def dotProduct (v1 v2 : List ℚ) : ℚ :=
  ((v1.zip v2).map (fun p => p.1 * p.2)).sum

def sumSquares (v : List ℚ) : ℚ := (v.map (fun a => a * a)).sum

/-- Exact characterization of `_cosine_similarity(v1, v2) > t` for a
positive threshold `t`: the source computes `dot / (sqrt s1 * sqrt s2)`
(0 for an empty or zero-magnitude vector); for `t > 0` that exceeds `t`
iff the dot product is positive and its square exceeds `t^2 * s1 * s2`. -/
def cosine_exceeds (v1 v2 : List ℚ) (t : ℚ) : Bool :=
  if v1 = [] ∨ v2 = [] then false
  else
    let dot := dotProduct v1 v2
    let s1 := sumSquares v1
    let s2 := sumSquares v2
    if s1 = 0 ∨ s2 = 0 then false
    else dot > 0 ∧ dot ^ 2 > t ^ 2 * (s1 * s2)

/-- The reason strings returned by `check_duplicates` (the semantic reason
embeds the similarity value in the source; only its kind is modelled). -/
inductive DupReason where
  | exactMatch
  | semantic
  | sameSource
  | noDuplicates
deriving Repr, DecidableEq, Inhabited

/-- `check_duplicates`. External collaborators are parameters: `hash` is
the text fingerprint (`_compute_text_hash`, SHA-256 in the source) and
`embed` the embedding service (`_get_embedding`, empty list on failure). -/
def check_duplicates (hash : String → String) (embed : String → List ℚ)
    (now : DT) (posts : List PostRecord) (content : Content) :
    Bool × DupReason :=
  let text := content.text
  -- Layer 1: exact match over the whole stored history
  let text_hash := hash text
  if posts.any (fun p => p.text_hash = text_hash) then
    (true, DupReason.exactMatch)
  else
    -- Layer 2: semantic similarity over the last `track_days` days
    let embedding := embed text
    let cutoff := now - track_days * 1440
    let semanticHit :=
      embedding ≠ [] ∧
        posts.any (fun p =>
          ¬ p.posted_at < cutoff ∧ p.embedding ≠ [] ∧
            cosine_exceeds embedding p.embedding duplicate_similarity_threshold)
    if semanticHit then (true, DupReason.semantic)
    else
      -- Layer 3: same curated source tweet
      let provenanceHit : Bool :=
        content.metadata.agent = "content_curator" &&
          match content.metadata.original_tweet_id with
          | some tid =>
            posts.any (fun p => p.metadata.original_tweet_id = some tid)
          | none => false
      if provenanceHit then (true, DupReason.sameSource)
      else (false, DupReason.noDuplicates)

/-! ## State update after a successful post (`update_state_after_post`,
`update_posts_database`) -/

/-- `w[0].isupper()` on a non-empty word. -/
def firstUpper (w : String) : Bool :=
  match w.toList with
  | [] => false
  | c :: _ => c.isUpper

/-- `text.split()` with no separator: split on whitespace runs, dropping
empty words; written over the character list so it reduces in the kernel. -/
def wordsAux : List Char → List Char → List String
  | [], acc => if acc.isEmpty then [] else [String.mk acc.reverse]
  | c :: rest, acc =>
    if c.isWhitespace then
      if acc.isEmpty then wordsAux rest []
      else String.mk acc.reverse :: wordsAux rest []
    else wordsAux rest (c :: acc)

/-- The topic extraction of `update_state_after_post`: `text.split()`,
keep words longer than 3 characters starting with an uppercase letter,
take the first 3. -/
def extract_topics (text : String) : List String :=
  ((wordsAux text.toList []).filter
    (fun w => w.length > 3 ∧ firstUpper w)).take 3

/-- `update_state_after_post`. The scheduled next post time (computed in
the source by `schedule_next_post` from injected randomness) is passed in
as `schedNext`; the function returns the state document it saves. -/
def update_state_after_post (state : OrchState) (ct : ContentType)
    (content : Content) (tweet_id : String) (now : DT) (schedNext : DT) :
    OrchState :=
  let l := state.last_7_days_posts ++ [⟨ct, dtDate now, tweet_id⟩]
  let l := if l.length > 7 then lastN 7 l else l
  let topics := extract_topics content.text
  let rt := lastN recent_topics_size (state.recent_topics ++ topics)
  let cti :=
    if ct = ContentType.curator ∧ content.metadata.original_tweet_id.isSome
    then lastN 50 (state.curated_tweet_ids ++
      [content.metadata.original_tweet_id.getD ""])
    else state.curated_tweet_ids
  { state with
    last_post_time := some now
    last_7_days_posts := l
    week_counts := state.week_counts.bump ct
    recent_topics := rt
    curated_tweet_ids := cti
    next_post_scheduled := some schedNext }

/-- `update_posts_database`: append the new record (embedding computed at
write time) and prune records older than the retention window. -/
def update_posts_database (hash : String → String) (embed : String → List ℚ)
    (now : DT) (ct : ContentType) (content : Content) (tweet_id : String)
    (quality_score : Int) (posts : List PostRecord) : List PostRecord :=
  let entry : PostRecord :=
    { post_id := tweet_id
      posted_at := now
      content_type := ct
      text := content.text
      text_hash := hash content.text
      embedding := embed content.text
      media_url := content.media_path
      agent_used := content.metadata.agent
      metadata := content.metadata
      quality_score := quality_score
      likes := 0
      retweets := 0
      views := 0 }
  let cutoff := now - track_days * 1440
  (posts ++ [entry]).filter (fun p => p.posted_at > cutoff)

/-! ## The daily run (`run_daily`) -/

/-- The injected environment of one `run_daily` invocation: wall-clock
time, filesystem, the generator (`call_agent`, per attempt index),
embedding service, hash, publisher (`post_to_x`), backup content store
(`get_backup_content`), and the two injected random draws (the selector's
weighted choice and the scheduled next post time). -/
structure Env where
  now : DT
  fs : FS
  gen : Nat → Option Content
  embed : String → List ℚ
  hash : String → String
  publish : Content → Option String
  backup : ContentType → Option Content
  pick : ContentType
  sched : DT

/-- The persistent stores: the orchestrator state document and the posts
database. -/
structure World where
  state : OrchState
  posts : List PostRecord
deriving Repr, DecidableEq, Inhabited

/-- The observable outcome of `run_daily` (in the source the three cases
are distinguished by logs and by whether a tweet was created). -/
inductive RunResult where
  | notTime
  | aborted
  | posted (tweet_id : String)
deriving Repr, DecidableEq, Inhabited

/-- The attempt loop of `run_daily`
(`for attempt in range(max_regeneration_attempts + 1)`), returning the
`content` variable's value when the loop exits. `fuel` bounds the
recursion; the loop runs at most `max_regeneration_attempts + 1` times. -/
def genLoop (env : Env) (posts : List PostRecord) :
    Nat → Nat → Option Content
  | 0, _ => none
  | fuel + 1, attempt =>
    match env.gen attempt with
    | none =>
      if attempt < max_regeneration_attempts then genLoop env posts fuel (attempt + 1)
      else env.backup env.pick
    | some content =>
      if ¬ (validate_content env.fs content).1 then
        if attempt < max_regeneration_attempts then genLoop env posts fuel (attempt + 1)
        else some content
      else if (check_duplicates env.hash env.embed env.now posts content).1 then
        if attempt < max_regeneration_attempts then genLoop env posts fuel (attempt + 1)
        else some content
      else some content

/-- `run_daily`: the full daily workflow against the persistent stores,
returning the outcome and the stores as left on disk. -/
def run_daily (env : Env) (w : World) : RunResult × World :=
  let sp := should_post_now w.state env.now
  let st1 := (sp.2).getD w.state
  if ¬ sp.1 then (RunResult.notTime, ⟨st1, w.posts⟩)
  else
    let r := load_state st1 env.now
    let state := r.1
    let st2 := (r.2).getD st1
    -- `select_content_type state` computes `select_probs state`; the
    -- weighted random draw from it is the injected `env.pick`
    let ct := env.pick
    match genLoop env w.posts (max_regeneration_attempts + 1) 0 with
    | none => (RunResult.aborted, ⟨st2, w.posts⟩)
    | some content =>
      let v := validate_content env.fs content
      if ¬ v.1 then (RunResult.aborted, ⟨st2, w.posts⟩)
      else
        match env.publish content with
        | none => (RunResult.aborted, ⟨st2, w.posts⟩)
        | some tweet_id =>
          let st3 := update_state_after_post state ct content tweet_id
            env.now env.sched
          let posts1 := update_posts_database env.hash env.embed env.now ct
            content tweet_id v.2.1 w.posts
          (RunResult.posted tweet_id, ⟨st3, posts1⟩)

/-! ## Concrete inputs used by counterexamples and witnesses -/

/-- A filesystem on which no path exists. -/
def fsAllMissing : FS := ⟨fun _ => false, fun _ => 0⟩

/-- A candidate with fine text but a missing media file with an
unrecognized extension. -/
def ghostContent : Content :=
  ⟨"Hello", some "ghost.xyz", ⟨"news_hunter", "serper_search", none⟩⟩

/-- A small healthy state: three history entries, empty counters. -/
def exampleState : OrchState :=
  { last_post_time := none
    last_7_days_posts := [⟨.meme, 0, "a"⟩, ⟨.news, 1, "b"⟩, ⟨.news, 2, "c"⟩]
    week_counts := ⟨0, 0, 0, 0⟩
    recent_topics := []
    curated_tweet_ids := []
    engagement_by_type := ⟨⟨0, 0, 0⟩, ⟨0, 0, 0⟩, ⟨0, 0, 0⟩, ⟨0, 0, 0⟩⟩
    next_post_scheduled := none
    preferred_time_windows := ["morning", "evening"]
    week_start_date := 0 }

/-! ## Helper lemmas -/

theorem base_weight_pos (ct : ContentType) : 0 < base_weight ct := by
  cases ct <;> norm_num [base_weight]

theorem lastN_of_le {α : Type _} {l : List α} {n : Nat} (h : l.length ≤ n) :
    lastN n l = l := by
  unfold lastN
  rw [Nat.sub_eq_zero_of_le h, List.drop_zero]

theorem lastN_length {α : Type _} (n : Nat) (l : List α) :
    (lastN n l).length = l.length - (l.length - n) := by
  unfold lastN
  exact List.length_drop _ _

theorem load_state_fields (s : OrchState) (now : DT) :
    (load_state s now).1.next_post_scheduled = s.next_post_scheduled ∧
      (load_state s now).1.last_post_time = s.last_post_time := by
  unfold load_state weeklyReset
  split <;> exact ⟨rfl, rfl⟩

theorem load_state_no_reset {s : OrchState} {now : DT}
    (h : days_since_week_start now s.week_start_date < 7) :
    load_state s now = (s, none) := by
  unfold load_state
  rw [if_neg (by omega)]

theorem days_since_aux_ge (ct : ContentType) :
    ∀ (m : List PostEntry) (i k : Nat),
      (∀ x ∈ m.take k, x.type ≠ ct) →
        min 7 (i + k) ≤ days_since_aux ct m i := by
  intro m
  induction m with
  | nil =>
    intro i k _
    simp [days_since_aux]
  | cons p rest ih =>
    intro i k h
    simp only [days_since_aux]
    by_cases hp : p.type = ct
    · rw [if_pos hp]
      cases k with
      | zero => omega
      | succ k =>
        exact absurd hp (h p (by simp [List.take]))
    · rw [if_neg hp]
      cases k with
      | zero =>
        have := ih (i + 1) 0 (by simp)
        omega
      | succ k =>
        have := ih (i + 1) k (fun x hx => h x (by simp [List.take, hx]))
        omega

theorem days_since_aux_lt (ct : ContentType) :
    ∀ (m : List PostEntry) (i k : Nat),
      (∃ x ∈ m.take k, x.type = ct) →
        days_since_aux ct m i < i + k := by
  intro m
  induction m with
  | nil =>
    intro i k h
    simp at h
  | cons p rest ih =>
    intro i k h
    cases k with
    | zero => simp at h
    | succ k =>
      simp only [days_since_aux]
      by_cases hp : p.type = ct
      · rw [if_pos hp]; omega
      · rw [if_neg hp]
        obtain ⟨x, hx, hxt⟩ := h
        simp only [List.take, List.mem_cons] at hx
        rcases hx with rfl | hx
        · exact absurd hxt hp
        · have := ih (i + 1) k ⟨x, hx, hxt⟩
          omega

/-! ## Claims -/

/-- C4 (counterexample): a candidate with non-empty text of length ≤ 280
and balanced quotes, whose media path points to a missing file with an
unrecognized extension, is scored 7 and accepted — the extension deduction
is not applied on top of the missing-file deduction as the claim states
(which would give 5 and rejection). -/
theorem C4_counterexample :
    ghostContent.text ≠ "" ∧
      ghostContent.text.length ≤ 280 ∧
      ghostContent.text.toList.count doubleQuote % 2 = 0 ∧
      ghostContent.text.toList.count singleQuote % 2 = 0 ∧
      ghostContent.media_path = some "ghost.xyz" ∧
      fsAllMissing.fileExists "ghost.xyz" = false ∧
      lowerStr (pathSuffix "ghost.xyz") ∉ valid_extensions ∧
      validate_content fsAllMissing ghostContent = (true, 7, []) := by
  decide

/-- C4 (amended): when the attached media file does not exist, only the
missing-file deduction (−3) applies — the size and extension checks are
skipped — so a candidate with otherwise clean text scores 7 and is valid,
whatever its extension. -/
theorem C4_theorem (fs : FS) (c : Content) (p : String)
    (hmedia : c.media_path = some p)
    (hmiss : fs.fileExists p = false)
    (htext : (c.text.toList.all fun ch => ch.isWhitespace) = false)
    (hlen : c.text.length ≤ 280)
    (hq1 : c.text.toList.count doubleQuote % 2 = 0)
    (hq2 : c.text.toList.count singleQuote % 2 = 0) :
    validate_content fs c = (true, 7, []) := by
  unfold validate_content
  have hLen : ¬ (c.text.length > 280) := by omega
  have hQ : ¬ (c.text.toList.count doubleQuote % 2 ≠ 0 ∨
      c.text.toList.count singleQuote % 2 ≠ 0) := by
    push_neg
    exact ⟨hq1, hq2⟩
  simp only [hmedia, htext, hmiss, Bool.false_eq_true, if_false,
    not_false_eq_true, if_true, if_neg hLen, if_neg hQ]
  norm_num [min_quality_score]

/-- C4 (witness for the amended theorem). -/
theorem C4_witness : validate_content fsAllMissing ghostContent = (true, 7, []) :=
  C4_theorem fsAllMissing ghostContent "ghost.xyz" rfl rfl (by decide)
    (by decide) (by decide) (by decide)

/-- C3 (counterexample): the underuse boost fires for `news` on a history
whose oldest entry is a `news` post four positions back, although `news`
does appear in the tracked window — refuting "boost iff the type does not
appear anywhere in the tracked history". -/
theorem C3_counterexample :
    boost_underused_cond
        [⟨.news, 0, "a"⟩, ⟨.meme, 1, "b"⟩, ⟨.meme, 2, "c"⟩,
          ⟨.meme, 3, "d"⟩, ⟨.meme, 4, "e"⟩] .news = true ∧
      (([⟨.news, 0, "a"⟩, ⟨.meme, 1, "b"⟩, ⟨.meme, 2, "c"⟩,
          ⟨.meme, 3, "d"⟩, ⟨.meme, 4, "e"⟩] : List PostEntry).map
          (fun p => p.type)).contains .news = true := by
  decide

/-- C3 (amended): the underuse boost multiplies the weight by 1.5 if and
only if the type does not appear among the last 4 entries of the tracked
history (entries further back — or absent entirely — still earn the
boost). -/
theorem C3_theorem (l : List PostEntry) (ct : ContentType) :
    boost_underused_cond l ct = true ↔
      ∀ x ∈ l.reverse.take 4, x.type ≠ ct := by
  unfold boost_underused_cond days_since_content_type
  simp only [ge_iff_le, decide_eq_true_eq]
  constructor
  · intro h x hx hxt
    have := days_since_aux_lt ct l.reverse 0 4 ⟨x, hx, hxt⟩
    omega
  · intro h
    have := days_since_aux_ge ct l.reverse 0 4 h
    omega

/-- A rational strictly between two consecutive integer thresholds compares
with a natural the same way the upper threshold does. -/
theorem rat_lt_nat_iff (a : ℚ) (k n : Nat) (h1 : a < k) (h2 : (k : ℚ) - 1 ≤ a) :
    (a < (n : ℚ)) ↔ k ≤ n := by
  constructor
  · intro h
    by_contra hn
    push_neg at hn
    have hq : (n : ℚ) + 1 ≤ (k : ℚ) := by exact_mod_cast hn
    linarith
  · intro h
    have hq : (k : ℚ) ≤ (n : ℚ) := by exact_mod_cast h
    linarith

/-- C5 (confirmed): for integer weekly counts, the source's decimal
thresholds (2.5, 2.1, 1.4, 1.0) coincide with the spec's
`base weight × 7` (2.45, 2.1, 1.4, 1.05): the weekly-quota damping fires
iff the count exceeds the base weight times 7. -/
theorem C5_theorem (state : OrchState) (ct : ContentType) :
    over_quota_cond state.week_counts ct = true ↔
      (state.week_counts.get ct : ℚ) > base_weight ct * 7 := by
  cases ct <;>
    simp only [over_quota_cond, expected_weekly, base_weight, WeekCounts.get,
      gt_iff_lt, decide_eq_true_eq]
  · rw [rat_lt_nat_iff (5 / 2) 3 _ (by norm_num) (by norm_num),
      rat_lt_nat_iff (35 / 100 * 7) 3 _ (by norm_num) (by norm_num)]
  · rw [rat_lt_nat_iff (21 / 10) 3 _ (by norm_num) (by norm_num),
      rat_lt_nat_iff (30 / 100 * 7) 3 _ (by norm_num) (by norm_num)]
  · rw [rat_lt_nat_iff (7 / 5) 2 _ (by norm_num) (by norm_num),
      rat_lt_nat_iff (20 / 100 * 7) 2 _ (by norm_num) (by norm_num)]
  · rw [rat_lt_nat_iff 1 2 _ (by norm_num) (by norm_num),
      rat_lt_nat_iff (15 / 100 * 7) 2 _ (by norm_num) (by norm_num)]

theorem adjusted_weight_veto (state : OrchState) (T : ContentType)
    (h1 : yesterday_type state.last_7_days_posts = some T)
    (h2 : day_before_type state.last_7_days_posts = some T) :
    adjusted_weight state T = 0 := by
  unfold adjusted_weight
  simp only [h1, h2, and_self, if_true, if_pos]
  split_ifs <;> norm_num

theorem adjusted_weight_pos (state : OrchState) (ct : ContentType)
    (hy : yesterday_type state.last_7_days_posts ≠ some ct) :
    0 < adjusted_weight state ct := by
  unfold adjusted_weight
  dsimp only
  simp only [hy, false_and, if_false]
  have hb := base_weight_pos ct
  split_ifs <;> nlinarith

theorem adjusted_weight_nonneg (state : OrchState) (ct : ContentType) :
    0 ≤ adjusted_weight state ct := by
  unfold adjusted_weight
  dsimp only
  have hb := base_weight_pos ct
  split_ifs <;> nlinarith

/-- C6 (confirmed): when the last two history entries share a type, that
type's adjusted weight is zeroed by the repetition veto, the adjusted
total stays nonzero (so the all-zero reset to base weights is not taken),
and the normalized selection probability of that type is exactly 0. -/
theorem C6_theorem (state : OrchState) (T : ContentType)
    (h1 : yesterday_type state.last_7_days_posts = some T)
    (h2 : day_before_type state.last_7_days_posts = some T) :
    weight_total state ≠ 0 ∧ select_probs state T = 0 := by
  have hz : adjusted_weight state T = 0 := adjusted_weight_veto state T h1 h2
  have hpos : 0 < weight_total state := by
    unfold weight_total
    have hn := adjusted_weight_nonneg state .news
    have hc := adjusted_weight_nonneg state .curator
    have hm := adjusted_weight_nonneg state .meme
    have hi := adjusted_weight_nonneg state .image
    cases T with
    | news =>
      have := adjusted_weight_pos state .curator (by simp [h1])
      linarith
    | curator =>
      have := adjusted_weight_pos state .news (by simp [h1])
      linarith
    | meme =>
      have := adjusted_weight_pos state .news (by simp [h1])
      linarith
    | image =>
      have := adjusted_weight_pos state .news (by simp [h1])
      linarith
  refine ⟨hpos.ne', ?_⟩
  unfold select_probs
  rw [if_neg hpos.ne', hz, zero_div]

/-- C6 (witness): on a concrete history ending `…, news, news` the selector
gives `news` probability exactly 0 while the total stays nonzero. -/
theorem C6_witness :
    weight_total exampleState ≠ 0 ∧ select_probs exampleState .news = 0 :=
  C6_theorem exampleState .news (by decide) (by decide)

/-- C7 (counterexample): with no explicit schedule, a "now" exactly
20 hours and 1 minute after the last post but on the same calendar day
(last post at midnight) is refused — the claim's unqualified "20 hours and
1 minute must return true" fails. -/
theorem C7_counterexample :
    ({ exampleState with last_post_time := some 0 } : OrchState).next_post_scheduled
        = none ∧
      (1201 : Int) - 0 = 20 * 60 + 1 ∧
      (should_post_now { exampleState with last_post_time := some 0 } 1201).1
        = false := by
  decide

/-- C7 (amended): with no explicit schedule and the current time on a
different calendar day than the last post, a gap of 19 hours is refused and
a gap of 20 hours and 1 minute is accepted. -/
theorem C7_theorem (stored : OrchState) (now last : DT)
    (hsched : stored.next_post_scheduled = none)
    (hlast : stored.last_post_time = some last)
    (hday : dtDate last ≠ dtDate now) :
    (now - last = 19 * 60 → (should_post_now stored now).1 = false) ∧
      (now - last = 20 * 60 + 1 → (should_post_now stored now).1 = true) := by
  obtain ⟨hn, hl⟩ := load_state_fields stored now
  unfold should_post_now
  simp only [hn, hl, hsched, hlast]
  rw [if_neg hday]
  constructor <;> intro he <;> rw [he]
  · rw [if_pos (by push_cast; norm_num)]
  · rw [if_neg (by push_cast; norm_num)]

/-- C7 (witness for the amended theorem): last post at 22:00, "now" 19
hours later (17:00 next day) is refused; 20 hours and 1 minute later
(18:01 next day) is accepted. -/
theorem C7_witness :
    (should_post_now { exampleState with last_post_time := some 1320 } 2460).1
        = false ∧
      (should_post_now { exampleState with last_post_time := some 1320 } 2521).1
        = true := by
  constructor
  · exact (C7_theorem _ 2460 1320 rfl rfl (by decide)).1 (by decide)
  · exact (C7_theorem _ 2521 1320 rfl rfl (by decide)).2 (by decide)

/-- C8 (confirmed): a candidate whose text equals the text of any
well-formed stored record (its stored fingerprint is the fingerprint of its
text) is flagged as a duplicate with the exact-match reason, whatever the
embedding service returns, however old the record is. -/
theorem C8_theorem (hash : String → String) (embed : String → List ℚ)
    (now : DT) (posts : List PostRecord) (content : Content) (r : PostRecord)
    (hmem : r ∈ posts) (htext : r.text = content.text)
    (hwf : r.text_hash = hash r.text) :
    check_duplicates hash embed now posts content
      = (true, DupReason.exactMatch) := by
  have hc : posts.any (fun p => p.text_hash = hash content.text) = true := by
    rw [List.any_eq_true]
    refine ⟨r, hmem, ?_⟩
    simp [hwf, htext]
  unfold check_duplicates
  dsimp only
  rw [if_pos (by simp [hc])]

/-- A candidate whose text already sits in the posts database. -/
def dupContent : Content :=
  ⟨"Dup text", none, ⟨"news_hunter", "serper_search", none⟩⟩

/-- The stored record with the same text (fingerprints written with the
identity fingerprint function used in the concrete scenarios). -/
def dupRecord : PostRecord :=
  { post_id := "p0", posted_at := 0, content_type := .news, text := "Dup text",
    text_hash := "Dup text", embedding := [], media_url := none,
    agent_used := "news_hunter",
    metadata := ⟨"news_hunter", "serper_search", none⟩,
    quality_score := 10, likes := 0, retweets := 0, views := 0 }

/-- C8 (witness): the concrete duplicate is flagged as an exact match even
with a non-empty embedding service. -/
theorem C8_witness :
    check_duplicates (fun s => s) (fun _ => [1]) 600 [dupRecord] dupContent
      = (true, DupReason.exactMatch) :=
  C8_theorem (fun s => s) (fun _ => [1]) 600 [dupRecord] dupContent dupRecord
    (by simp) rfl rfl

/-- C9 (confirmed): `update_state_after_post` keeps the 7-day history
exactly the ≤ 7 most recent entries: the new history is the last 7 of the
old history plus the new entry (order preserved, oldest evicted), and 10
sequential updates starting from an empty history leave exactly the 7 most
recent entries. -/
theorem C9_theorem :
    (∀ (state : OrchState) (ct : ContentType) (content : Content)
        (tid : String) (now schedNext : DT),
        state.last_7_days_posts.length ≤ 7 →
          (update_state_after_post state ct content tid now
                schedNext).last_7_days_posts
              = lastN 7 (state.last_7_days_posts ++ [⟨ct, dtDate now, tid⟩]) ∧
            (update_state_after_post state ct content tid now
                schedNext).last_7_days_posts.length ≤ 7) ∧
      ((List.range 10).foldl
          (fun st i =>
            update_state_after_post st .news ⟨"hello", none, ⟨"a", "b", none⟩⟩
              "id" ((i : Int) * 1440) 0)
          { exampleState with last_7_days_posts := [] }).last_7_days_posts
        = [⟨.news, 3, "id"⟩, ⟨.news, 4, "id"⟩, ⟨.news, 5, "id"⟩,
            ⟨.news, 6, "id"⟩, ⟨.news, 7, "id"⟩, ⟨.news, 8, "id"⟩,
            ⟨.news, 9, "id"⟩] := by
  constructor
  · intro state ct content tid now schedNext h
    unfold update_state_after_post
    dsimp only
    by_cases hlen :
        (state.last_7_days_posts ++ ([⟨ct, dtDate now, tid⟩] : List PostEntry)).length > 7
    · rw [if_pos hlen]
      refine ⟨rfl, ?_⟩
      rw [lastN_length]
      omega
    · rw [if_neg hlen]
      push_neg at hlen
      exact ⟨(lastN_of_le hlen).symm, by omega⟩
  · decide

/-- C9 (witness): one concrete update on a 3-entry history appends the new
entry and stays within the cap. -/
theorem C9_witness :
    (update_state_after_post exampleState .news ghostContent "idX" 4320
          5000).last_7_days_posts
        = lastN 7 (exampleState.last_7_days_posts ++ [⟨.news, dtDate 4320, "idX"⟩]) ∧
      (update_state_after_post exampleState .news ghostContent "idX" 4320
          5000).last_7_days_posts.length ≤ 7 :=
  C9_theorem.1 exampleState .news ghostContent "idX" 4320 5000 (by decide)

/-- C10 (confirmed): `load_state` writes the state document back exactly
when 7 or more days have elapsed since `week_start_date` — the written
document is the returned one, with all four weekly counters zeroed, the
week start set to the current date and every other field untouched;
otherwise it performs no write and returns the stored document unchanged.
`should_post_now` performs exactly the write of its `load_state` call. -/
theorem C10_theorem (s : OrchState) (now : DT) :
    (7 ≤ days_since_week_start now s.week_start_date →
        (load_state s now).2 = some (load_state s now).1 ∧
          (load_state s now).1.week_counts = WeekCounts.zero ∧
          (load_state s now).1.week_start_date = dtDate now ∧
          (load_state s now).1.last_post_time = s.last_post_time ∧
          (load_state s now).1.last_7_days_posts = s.last_7_days_posts ∧
          (load_state s now).1.recent_topics = s.recent_topics ∧
          (load_state s now).1.curated_tweet_ids = s.curated_tweet_ids ∧
          (load_state s now).1.engagement_by_type = s.engagement_by_type ∧
          (load_state s now).1.next_post_scheduled = s.next_post_scheduled ∧
          (load_state s now).1.preferred_time_windows
            = s.preferred_time_windows) ∧
      (days_since_week_start now s.week_start_date < 7 →
        (load_state s now).2 = none ∧ (load_state s now).1 = s) ∧
      (should_post_now s now).2 = (load_state s now).2 := by
  refine ⟨?_, ?_, rfl⟩
  · intro h
    unfold load_state
    rw [if_pos h]
    exact ⟨rfl, rfl, rfl, rfl, rfl, rfl, rfl, rfl, rfl, rfl⟩
  · intro h
    rw [load_state_no_reset h]
    exact ⟨rfl, rfl⟩

/-- C10 (witness): a stale week start (8 days ago) is reset and saved; a
fresh one is left alone. -/
theorem C10_witness :
    (load_state { exampleState with week_start_date := -8 } 600).1.week_counts
        = WeekCounts.zero ∧
      (load_state exampleState 600).2 = none := by
  constructor
  · exact ((C10_theorem { exampleState with week_start_date := -8 } 600).1
      (by decide)).2.1
  · exact ((C10_theorem exampleState 600).2.1 (by decide)).1

/-- The environment of the concrete aborting run: the generator produces a
fresh valid candidate but the publisher fails. -/
def abortEnv : Env :=
  { now := 600, fs := fsAllMissing,
    gen := fun _ => some ⟨"Fresh words", none,
      ⟨"news_hunter", "serper_search", none⟩⟩,
    embed := fun _ => [], hash := fun s => s,
    publish := fun _ => none, backup := fun _ => none,
    pick := .news, sched := 2000 }

/-- A world whose week started 8 days ago, with a nonzero weekly counter. -/
def staleWorld : World :=
  ⟨{ exampleState with week_start_date := -8, week_counts := ⟨1, 0, 0, 0⟩ }, []⟩

/-- A world with a fresh week start. -/
def freshWorld : World := ⟨exampleState, []⟩

/-- C2 (counterexample): a run that aborts on publish failure nevertheless
leaves a changed state document when ≥ 7 days had elapsed since
`week_start_date` — the weekly reset performed by `load_state` is persisted
even though the run aborts. -/
theorem C2_counterexample :
    (run_daily abortEnv staleWorld).1 = RunResult.aborted ∧
      (run_daily abortEnv staleWorld).2.state ≠ staleWorld.state := by
  decide

/-- C2 (amended): provided fewer than 7 days have elapsed since
`week_start_date` (so the weekly reset of `load_state` does not fire),
every run that does not publish — abort at any stage or not-time no-op —
leaves both stores exactly as they were. -/
theorem C2_theorem (env : Env) (w : World)
    (hdays : days_since_week_start env.now w.state.week_start_date < 7) :
    (run_daily env w).2 = w ∨
      ∃ tid, (run_daily env w).1 = RunResult.posted tid := by
  obtain ⟨ws, wp⟩ := w
  have hsp : (should_post_now ws env.now).2 = none := by
    unfold should_post_now
    dsimp only
    rw [load_state_no_reset hdays]
  unfold run_daily
  dsimp only
  simp only [hsp, Option.getD_none, load_state_no_reset hdays]
  split
  · left; rfl
  · split
    · left; rfl
    · split
      · left; rfl
      · split
        · left; rfl
        · right; exact ⟨_, rfl⟩

/-- C2 (witness): the concrete publish-failure run with a fresh week start
is a no-op on both stores. -/
theorem C2_witness :
    (run_daily abortEnv freshWorld).2 = freshWorld ∨
      ∃ tid, (run_daily abortEnv freshWorld).1 = RunResult.posted tid :=
  C2_theorem abortEnv freshWorld (by decide)

/-- The environment of the all-duplicates run: every attempt yields the
same valid candidate whose text already sits in the posts database, and the
publisher succeeds. -/
def dupEnv : Env :=
  { now := 600, fs := fsAllMissing, gen := fun _ => some dupContent,
    embed := fun _ => [], hash := fun s => s,
    publish := fun _ => some "tid9", backup := fun _ => none,
    pick := .news, sched := 2000 }

def dupWorld : World :=
  ⟨{ exampleState with last_7_days_posts := [] }, [dupRecord]⟩

/-- C1 (the code contradicts the claimed abort): on a run where the
generator returns a valid candidate on every attempt and every candidate is
flagged as a duplicate, `run_daily` exhausts its
`max_regeneration_attempts + 1` attempts and then publishes the duplicate
candidate and mutates both stores — the final defensive re-check
re-validates but never re-runs the duplicate check, so the flagged
candidate is not discarded. -/
theorem C1_theorem :
    dupEnv.gen 0 = some dupContent ∧
      dupEnv.gen 1 = some dupContent ∧
      dupEnv.gen 2 = some dupContent ∧
      (validate_content dupEnv.fs dupContent).1 = true ∧
      (check_duplicates dupEnv.hash dupEnv.embed dupEnv.now dupWorld.posts
          dupContent).1 = true ∧
      (run_daily dupEnv dupWorld).1 = RunResult.posted "tid9" ∧
      (run_daily dupEnv dupWorld).2.state ≠ dupWorld.state ∧
      (run_daily dupEnv dupWorld).2.posts ≠ dupWorld.posts := by
  decide

end Agentos
